import Mathlib

/-!
Verification of the spaced-repetition review pipeline of the
`10xdevs-flashcards` repository.

The repository delegates the FSRS arithmetic to the external `ts-fsrs`
package; only the glue (`submitReview` in `src/lib/services/review.service.ts`,
the `CreateReviewSchema` Zod validator in `src/pages/api/reviews/index.ts`,
and the `review_logs` migration) lives in the repository.  The scheduler
itself is therefore modelled from the specification (its §4 state machine and
§3 data model); everything else is embedded directly from the source.

Timestamps are modelled as rational numbers of days since an arbitrary epoch
(`Date` values and their ISO strings are identified with their value);
`stability`/`difficulty` are rationals standing for the doubles of the source.
-/

namespace Flashcards

/-- The four recall ratings, 1=Again, 2=Hard, 3=Good, 4=Easy
(ts-fsrs `Rating` enum as used by the repository). -/
inductive Rating where
  | again
  | hard
  | good
  | easy
deriving DecidableEq, Repr

/-- Modelled from the spec: the configured parameters of the scheduler
(§4 "configured bounds", §9 "explicit, injected configuration struct").
The exact numeric weight constants are left open by the spec (§9
"do not guess these values"); the defaults below are representative
placeholders, and every theorem that depends on the configuration assumes
only the well-formedness predicate `FsrsConfig.WF`. -/
structure FsrsConfig where
  minDifficulty : ℚ := 1
  maxDifficulty : ℚ := 10
  minStability : ℚ := mkRat 1 100
  maxInterval : ℚ := 36500
  learningSteps : List ℚ := [mkRat 1 1440, mkRat 1 144]
  relearningSteps : List ℚ := [mkRat 1 144]
deriving Repr

/-- Well-formedness of a configuration: ordered difficulty bounds, a strictly
positive stability floor, a maximum interval of at least one day, and strictly
positive learning/relearning step durations. -/
def FsrsConfig.WF (cfg : FsrsConfig) : Prop :=
  cfg.minDifficulty ≤ cfg.maxDifficulty ∧
  0 < cfg.minStability ∧
  1 ≤ cfg.maxInterval ∧
  (∀ s ∈ cfg.learningSteps, 0 < s) ∧
  (∀ s ∈ cfg.relearningSteps, 0 < s)

instance (cfg : FsrsConfig) : Decidable cfg.WF := by
  unfold FsrsConfig.WF
  infer_instance

/-- Modelled from the spec: the ts-fsrs `Card` memory-state (§3).
`state` is the numeric lifecycle stage exactly as stored by the repository
(0=New, 1=Learning, 2=Review, 3=Relearning); `learning_steps` is the index
into the learning-step sequence (not persisted by the repository). -/
structure Card where
  due : ℚ
  stability : ℚ
  difficulty : ℚ
  elapsed_days : ℚ
  scheduled_days : ℚ
  reps : ℕ
  lapses : ℕ
  state : ℕ
  last_review : Option ℚ
  learning_steps : ℕ
deriving DecidableEq, Repr

/-- Modelled from the spec: ts-fsrs `createEmptyCard` — the all-default
memory-state of a never-reviewed card (§3 lifecycle).  The repository only
reads its `learning_steps` field. -/
def createEmptyCard : Card :=
  { due := 0
    stability := 0
    difficulty := 0
    elapsed_days := 0
    scheduled_days := 0
    reps := 0
    lapses := 0
    state := 0
    last_review := none
    learning_steps := 0 }

/-- Clamp difficulty into the configured `[min, max]` range (§4 numeric
semantics: "difficulty is clamped to its configured bounds after every
update"). -/
def clampD (cfg : FsrsConfig) (d : ℚ) : ℚ :=
  min cfg.maxDifficulty (max cfg.minDifficulty d)

/-- Clamp stability to the configured minimum (§4 numeric semantics:
"stability is clamped to a configured minimum"). -/
def clampS (cfg : FsrsConfig) (s : ℚ) : ℚ :=
  max cfg.minStability s

/-- Modelled from the spec: the numeric weight of a rating (1..4), used by the
rating-weighted initialisation formulas (§4). -/
def ratingValue : Rating → ℚ
  | .again => 1
  | .hard => 2
  | .good => 3
  | .easy => 4

/-- Modelled from the spec: initial difficulty after the first rating, a
rating-weighted value clamped to the configured bounds (§4 "stability and
difficulty are initialized from the rating-weighted formula"). -/
def initialDifficulty (cfg : FsrsConfig) (r : Rating) : ℚ :=
  clampD cfg (8 - ratingValue r)

/-- Modelled from the spec: initial stability after the first rating, a
rating-weighted value clamped to the configured minimum (§4). -/
def initialStability (cfg : FsrsConfig) (r : Rating) : ℚ :=
  clampS cfg (ratingValue r)

/-- Modelled from the spec: per-review difficulty nudge — up for Again/Hard,
down for Easy — clamped to the configured bounds after every update (§4). -/
def nextDifficulty (cfg : FsrsConfig) (d : ℚ) (r : Rating) : ℚ :=
  clampD cfg (d + (3 - ratingValue r) / 2)

/-- Modelled from the spec: retrievability estimate derived from elapsed days
versus the old stability (§4, glossary). -/
def retrievability (s e : ℚ) : ℚ :=
  s / (s + max 0 e)

/-- Modelled from the spec: the rating-dependent multiplier of the stability
gain — Hard shrinks the gain, Easy amplifies it (§4 Review → Review). -/
def ratingMult : Rating → ℚ
  | .again => 0
  | .hard => 1 / 2
  | .good => 1
  | .easy => 2

/-- Modelled from the spec: new stability after a successful (non-Again)
review in Review/Relearning state — an increasing function of the previous
stability, the bounded difficulty, the retrievability estimate and the
rating-dependent multiplier, clamped to the configured minimum (§4). -/
def nextStabilitySuccess (cfg : FsrsConfig) (s d e : ℚ) (r : Rating) : ℚ :=
  clampS cfg (s + s * ratingMult r * (cfg.maxDifficulty + 1 - d) *
    (1 - retrievability s e) / cfg.maxDifficulty)

/-- Modelled from the spec: stability after a lapse decreases by a
lapse-penalty factor, clamped to the configured minimum (§4 Review →
Relearning). -/
def lapseStability (cfg : FsrsConfig) (s : ℚ) : ℚ :=
  clampS cfg (s / 2)

/-- Modelled from the spec: an interval in whole days derived from the
stability, floored to an integer day count and clamped to the configured
minimum of one day and the configured maximum (§4 numeric semantics). -/
def graduatedInterval (cfg : FsrsConfig) (s : ℚ) : ℚ :=
  max 1 (min cfg.maxInterval ((s.floor : ℤ) : ℚ))

/-- Modelled from the spec: the duration of a learning/relearning step taken
from the configured step list (§4); a one-day fallback is used when the index
is out of range. -/
def stepInterval (steps : List ℚ) (i : ℕ) : ℚ :=
  steps.getD i 1

/-- Modelled from the spec: the whole-day difference between the current
review instant and the previous review, 0 when there was no previous review
(§4 "elapsed_days for this review is set to now − last_review in days (0 if
last_review is null)"). -/
def elapsedDays (last_review : Option ℚ) (now : ℚ) : ℚ :=
  match last_review with
  | none => 0
  | some lr => (((now - lr).floor : ℤ) : ℚ)

/-- The branch-dependent part of one scheduling transition: the next lifecycle
stage, the clamped difficulty and stability, the interval actually applied
(in days) and the next learning-step index. -/
structure BranchResult where
  nextState : ℕ
  nextDiff : ℚ
  nextStab : ℚ
  interval : ℚ
  nextStep : ℕ
deriving Repr

/-- Modelled from the spec: the state-and-rating dependent part of one
transition of the §4 state machine.

* New → Learning on any rating, except Easy which graduates directly to
  Review with a multi-day interval (§4 New → Learning).
* Learning → Learning on Again/Hard/Good while the step sequence is not
  exhausted (Again restarts, Hard repeats, Good advances); Learning → Review
  when the sequence completes with a non-Again rating or immediately on Easy,
  with stability initialised from the rating-weighted formula (§4).
* Review → Review on Hard/Good/Easy with nudged difficulty and the
  stability-growth formula; Review → Relearning on Again with the
  lapse-penalty stability (§4).
* Relearning mirrors Learning's sub-steps but starts from the post-lapse
  stability (§4 Relearning → Relearning / Review); any lifecycle value above
  3 is treated like Relearning.

Difficulty is clamped on every branch and every interval is strictly positive
for a well-formed configuration. -/
def branchData (cfg : FsrsConfig) (c : Card) (e : ℚ) (r : Rating) : BranchResult :=
  if c.state = 0 then
    match r with
    | .easy =>
      let s := initialStability cfg .easy
      ⟨2, initialDifficulty cfg .easy, s, graduatedInterval cfg s, 0⟩
    | _ =>
      ⟨1, initialDifficulty cfg r, initialStability cfg r,
        stepInterval cfg.learningSteps 0, 0⟩
  else if c.state = 1 then
    match r with
    | .again =>
      ⟨1, nextDifficulty cfg c.difficulty .again, clampS cfg c.stability,
        stepInterval cfg.learningSteps 0, 0⟩
    | .hard =>
      ⟨1, nextDifficulty cfg c.difficulty .hard, clampS cfg c.stability,
        stepInterval cfg.learningSteps c.learning_steps, c.learning_steps⟩
    | .good =>
      if c.learning_steps + 1 < cfg.learningSteps.length then
        ⟨1, nextDifficulty cfg c.difficulty .good, clampS cfg c.stability,
          stepInterval cfg.learningSteps (c.learning_steps + 1),
          c.learning_steps + 1⟩
      else
        let s := initialStability cfg .good
        ⟨2, nextDifficulty cfg c.difficulty .good, s, graduatedInterval cfg s, 0⟩
    | .easy =>
      let s := initialStability cfg .easy
      ⟨2, nextDifficulty cfg c.difficulty .easy, s, graduatedInterval cfg s, 0⟩
  else if c.state = 2 then
    match r with
    | .again =>
      ⟨3, nextDifficulty cfg c.difficulty .again, lapseStability cfg c.stability,
        stepInterval cfg.relearningSteps 0, 0⟩
    | _ =>
      let s := nextStabilitySuccess cfg c.stability c.difficulty e r
      ⟨2, nextDifficulty cfg c.difficulty r, s, graduatedInterval cfg s, 0⟩
  else
    match r with
    | .again =>
      ⟨3, nextDifficulty cfg c.difficulty .again, clampS cfg c.stability,
        stepInterval cfg.relearningSteps 0, 0⟩
    | .hard =>
      ⟨3, nextDifficulty cfg c.difficulty .hard, clampS cfg c.stability,
        stepInterval cfg.relearningSteps c.learning_steps, c.learning_steps⟩
    | .good =>
      if c.learning_steps + 1 < cfg.relearningSteps.length then
        ⟨3, nextDifficulty cfg c.difficulty .good, clampS cfg c.stability,
          stepInterval cfg.relearningSteps (c.learning_steps + 1),
          c.learning_steps + 1⟩
      else
        let s := nextStabilitySuccess cfg c.stability c.difficulty e .good
        ⟨2, nextDifficulty cfg c.difficulty .good, s, graduatedInterval cfg s, 0⟩
    | .easy =>
      let s := nextStabilitySuccess cfg c.stability c.difficulty e .easy
      ⟨2, nextDifficulty cfg c.difficulty .easy, s, graduatedInterval cfg s, 0⟩

/-- Modelled from the spec: the per-review log produced by the scheduler
alongside the updated card.  Only the field actually read by the repository
is modelled: `elapsed_days`, the whole days since the previous review at the
time of the current review ("Time since last review" in the source comment
on `recordLog.log.elapsed_days`; §4 "elapsed_days for this review is set to
now − last_review in days"). -/
structure ReviewLog where
  elapsed_days : ℚ
deriving DecidableEq, Repr

/-- One entry of the ts-fsrs record log: the updated card together with the
review log for one rating. -/
structure RecordLogItem where
  card : Card
  log : ReviewLog
deriving Repr

/-- Modelled from the spec: one transition of the §4 state machine for a
given rating.  The branch-dependent data comes from `branchData`; the
bookkeeping common to every transition (§4 "In every transition") is:
`reps += 1`; `elapsed_days := now − last_review` in whole days (0 if
`last_review` is null); `scheduled_days` is the interval actually applied;
`due = now + scheduled_days`; `last_review = now`; `lapses` increases by one
exactly on an Again rating in Review/Relearning state. -/
def scheduleRating (cfg : FsrsConfig) (c : Card) (now : ℚ) (r : Rating) :
    RecordLogItem :=
  let e := elapsedDays c.last_review now
  let b := branchData cfg c e r
  { card :=
      { due := now + b.interval
        stability := b.nextStab
        difficulty := b.nextDiff
        elapsed_days := e
        scheduled_days := b.interval
        reps := c.reps + 1
        lapses := c.lapses + (if r = .again ∧ (c.state = 2 ∨ c.state = 3) then 1 else 0)
        state := b.nextState
        last_review := some now
        learning_steps := b.nextStep }
    log := { elapsed_days := e } }

/-- Modelled from the spec: ts-fsrs `fsrs.repeat(card, now)` — the record of
scheduling outcomes for all four ratings, from which the caller selects the
entry for the user's rating. -/
def fsrsRepeat (cfg : FsrsConfig) (c : Card) (now : ℚ) : Rating → RecordLogItem :=
  fun r => scheduleRating cfg c now r

/-- A row of the `flashcards` table (`database.types.ts`, `FlashcardDTO`).
Timestamp columns (`created_at`, `updated_at`, `due`, `last_review`) are
rationals standing for their ISO-string values. -/
structure DbCard where
  id : String
  user_id : String
  front : String
  back : String
  is_ai_generated : Bool
  created_at : ℚ
  updated_at : ℚ
  due : ℚ
  stability : ℚ
  difficulty : ℚ
  elapsed_days : ℚ
  scheduled_days : ℚ
  reps : ℕ
  lapses : ℕ
  state : ℕ
  last_review : Option ℚ
deriving DecidableEq, Repr

/-- The `CreateReviewDTO` payload accepted by `submitReview`
(`types.ts`): the card id, the numeric rating and the optional review
duration in milliseconds. -/
structure CreateReviewDTO where
  card_id : String
  rating : ℕ
  review_duration_ms : Option ℚ
deriving DecidableEq, Repr

/-- `convertRatingToFsrsRating` from `review.service.ts`: maps the numeric
rating 1..4 to the Rating enum; any other value hits the defensive `default`
branch and throws. -/
def convertRatingToFsrsRating (rating : ℕ) : Except String Rating :=
  if rating = 1 then .ok .again
  else if rating = 2 then .ok .hard
  else if rating = 3 then .ok .good
  else if rating = 4 then .ok .easy
  else .error "Invalid rating value"

/-- `convertDbCardToFsrsCard` from `review.service.ts`: maps a database row
to a ts-fsrs card; `learning_steps` is not stored in the database, so the
default empty card's value is used. -/
def convertDbCardToFsrsCard (dbCard : DbCard) : Card :=
  { due := dbCard.due
    stability := dbCard.stability
    difficulty := dbCard.difficulty
    elapsed_days := dbCard.elapsed_days
    scheduled_days := dbCard.scheduled_days
    reps := dbCard.reps
    lapses := dbCard.lapses
    state := dbCard.state
    last_review := dbCard.last_review
    learning_steps := createEmptyCard.learning_steps }

/-- The update payload of Step 4 of `submitReview` (`review.service.ts`
lines 120–131): exactly the FSRS parameters of the updated card plus
`last_review` and `updated_at`, both set to `now`. -/
structure CardUpdate where
  state : ℕ
  difficulty : ℚ
  stability : ℚ
  due : ℚ
  elapsed_days : ℚ
  scheduled_days : ℚ
  reps : ℕ
  lapses : ℕ
  last_review : ℚ
  updated_at : ℚ
deriving DecidableEq, Repr

/-- Applying the update payload to a stored row: only the columns present in
the payload change; every other column keeps its stored value. -/
def applyReviewUpdate (c : DbCard) (u : CardUpdate) : DbCard :=
  { c with
    state := u.state
    difficulty := u.difficulty
    stability := u.stability
    due := u.due
    elapsed_days := u.elapsed_days
    scheduled_days := u.scheduled_days
    reps := u.reps
    lapses := u.lapses
    last_review := some u.last_review
    updated_at := u.updated_at }

/-- The `review_logs` insert payload of Step 5 of `submitReview`
(`review.service.ts` lines 148–162). -/
structure LogRow where
  card_id : String
  user_id : String
  rating : ℕ
  review_duration_ms : Option ℚ
  reviewed_at : ℚ
  state : ℕ
  difficulty : ℚ
  stability : ℚ
  elapsed_days : ℚ
  scheduled_days : ℚ
  last_elapsed_days : ℚ
  due : ℚ
deriving DecidableEq, Repr

/-- The fetch of Step 1: `select * ... eq id ... eq user_id ... single()`,
returning the first stored row whose `id` and `user_id` both match. -/
def fetchCard (db : List DbCard) (card_id userId : String) : Option DbCard :=
  db.find? (fun c => c.id == card_id && c.user_id == userId)

/-- The conditional write of Step 4: every stored row whose `id` and
`user_id` both match the filters receives the update payload.  The filters
are exactly the two `eq` clauses of the source — the repository does not
compare against the previously read state. -/
def updateCardWhere (db : List DbCard) (card_id userId : String)
    (u : CardUpdate) : List DbCard :=
  db.map (fun c => if c.id == card_id && c.user_id == userId then applyReviewUpdate c u else c)

/-- The outcome of one `submitReview` call: the returned value (the updated
card, or the thrown error message), the row written by the card update if it
was applied, the `review_logs` payload if the insert was attempted, and
whether the insert succeeded. -/
structure SubmitOutcome where
  result : Except String DbCard
  written : Option DbCard
  logAttempt : Option LogRow
  logWritten : Bool
deriving Repr

/-- `submitReview` from `review.service.ts`, embedded over a list-of-rows
database.  `updateOk` and `logOk` are the storage-outcome oracles for the
card update and the review-log insert (a `false` models the corresponding
database error).  The flow mirrors the source:

1. fetch the current card filtered by `card_id` and `userId`; throw when no
   row is found;
2. convert the row to a ts-fsrs card;
3. run the scheduler at `now` and select the entry for the user's rating;
4. write the update payload (FSRS parameters plus `last_review := now` and
   `updated_at := now`) filtered by `card_id` and `userId`; throw when the
   write fails;
5. insert the review log (pre-update snapshot from the fetched row, plus
   `last_elapsed_days := recordLog.log.elapsed_days`); a failure here is only
   logged and the updated card is returned regardless. -/
def submitReview (cfg : FsrsConfig) (db : List DbCard) (updateOk logOk : Bool)
    (userId : String) (dto : CreateReviewDTO) (now : ℚ) :
    SubmitOutcome × List DbCard :=
  match fetchCard db dto.card_id userId with
  | none =>
    (⟨.error "Flashcard not found or you don't have access to it", none, none, false⟩, db)
  | some currentCard =>
    let fsrsCard := convertDbCardToFsrsCard currentCard
    match convertRatingToFsrsRating dto.rating with
    | .error m => (⟨.error m, none, none, false⟩, db)
    | .ok fsrsRating =>
      let schedulingInfo := fsrsRepeat cfg fsrsCard now
      let recordLog :=
        if fsrsRating = .again then schedulingInfo .again
        else if fsrsRating = .hard then schedulingInfo .hard
        else if fsrsRating = .good then schedulingInfo .good
        else schedulingInfo .easy
      let updatedFsrsCard := recordLog.card
      let upd : CardUpdate :=
        { state := updatedFsrsCard.state
          difficulty := updatedFsrsCard.difficulty
          stability := updatedFsrsCard.stability
          due := updatedFsrsCard.due
          elapsed_days := updatedFsrsCard.elapsed_days
          scheduled_days := updatedFsrsCard.scheduled_days
          reps := updatedFsrsCard.reps
          lapses := updatedFsrsCard.lapses
          last_review := now
          updated_at := now }
      if updateOk = false then
        (⟨.error "Failed to update flashcard", none, none, false⟩, db)
      else
        let updatedCard := applyReviewUpdate currentCard upd
        let db1 := updateCardWhere db dto.card_id userId upd
        let logRow : LogRow :=
          { card_id := dto.card_id
            user_id := userId
            rating := dto.rating
            review_duration_ms := dto.review_duration_ms
            reviewed_at := now
            state := currentCard.state
            difficulty := currentCard.difficulty
            stability := currentCard.stability
            elapsed_days := currentCard.elapsed_days
            scheduled_days := currentCard.scheduled_days
            last_elapsed_days := recordLog.log.elapsed_days
            due := currentCard.due }
        (⟨.ok updatedCard, some updatedCard, some logRow, logOk⟩, db1)

/-- A request body for POST `/api/reviews` after JSON parsing, with the three
fields of the schema already carrying their JSON types: `card_id` a string,
`rating` a number, `review_duration_ms` an optional number. -/
structure ReviewRequest where
  card_id : String
  rating : ℚ
  review_duration_ms : Option ℚ
deriving DecidableEq, Repr

/-- A hexadecimal digit, in either case. -/
def isHexDigit (ch : Char) : Bool :=
  ch.isDigit || (Char.ofNat 97 ≤ ch && ch ≤ Char.ofNat 102) ||
    (Char.ofNat 65 ≤ ch && ch ≤ Char.ofNat 70)

/-- Split a character list into the groups separated by dashes. -/
def dashGroups (cs : List Char) : List (List Char) :=
  cs.foldr
    (fun ch acc =>
      match acc with
      | [] => [[ch]]
      | g :: gs => if ch = Char.ofNat 45 then [] :: g :: gs else (ch :: g) :: gs)
    [[]]

/-- The `z.string().uuid()` check of the schema: five dash-separated groups
of 8, 4, 4, 4 and 12 hexadecimal digits. -/
def isUuid (s : String) : Bool :=
  match dashGroups s.data with
  | [a, b, c, d, e] =>
    a.length == 8 && b.length == 4 && c.length == 4 && d.length == 4 &&
      e.length == 12 && (a ++ b ++ c ++ d ++ e).all isHexDigit
  | _ => false

/-- `CreateReviewSchema.safeParse` from `src/pages/api/reviews/index.ts`
lines 41–47: `card_id` must be a UUID string, `rating` must be one of the
literal numbers 1, 2, 3, 4, and `review_duration_ms`, when present, must be
an integer accepted by `z.number().int().positive(...)` — that is, strictly
greater than zero. -/
def CreateReviewSchemaAccepts (r : ReviewRequest) : Bool :=
  isUuid r.card_id &&
    (r.rating == 1 || r.rating == 2 || r.rating == 3 || r.rating == 4) &&
    (match r.review_duration_ms with
     | none => true
     | some d => d.den == 1 && decide (0 < d))

/-- The default configuration used in the witnesses below. -/
def defaultConfig : FsrsConfig := {}

/-- A concrete Review-state stored row used by the concrete witnesses:
previously reviewed 95 days after the epoch with a 3-day elapsed gap recorded
at that time. -/
def sampleCard : DbCard :=
  { id := "11111111-2222-3333-4444-555555555555"
    user_id := "aaaaaaaa-bbbb-cccc-dddd-eeeeeeeeeeee"
    front := "question"
    back := "answer"
    is_ai_generated := false
    created_at := 10
    updated_at := 95
    due := 105
    stability := 10
    difficulty := 5
    elapsed_days := 3
    scheduled_days := 10
    reps := 7
    lapses := 1
    state := 2
    last_review := some 95 }

/-- The review request used by the concrete witnesses: rating Good at
`now = 100`, five whole days after `sampleCard.last_review`. -/
def sampleDto : CreateReviewDTO :=
  { card_id := "11111111-2222-3333-4444-555555555555"
    rating := 3
    review_duration_ms := some 4200 }

/-- The write of Step 4 as the storage layer performs it against an arbitrary
current database (used to model interleaved calls): the update is applied to
every row matching the two `eq` filters and, as with `.select().single()`, the
call fails exactly when no row matches. -/
def writeCardUpdate (db : List DbCard) (card_id userId : String)
    (u : CardUpdate) : Except String (DbCard × List DbCard) :=
  match fetchCard db card_id userId with
  | none => .error "Failed to update flashcard"
  | some c => .ok (applyReviewUpdate c u, updateCardWhere db card_id userId u)

/-- The scheduler entry selected by `submitReview` for the fetched card and
the converted rating. -/
def scheduledItem (cfg : FsrsConfig) (c : DbCard) (now : ℚ) (fr : Rating) :
    RecordLogItem :=
  fsrsRepeat cfg (convertDbCardToFsrsCard c) now fr

/-- The update payload `submitReview` builds for the fetched card and the
converted rating. -/
def updPayload (cfg : FsrsConfig) (c : DbCard) (now : ℚ) (fr : Rating) :
    CardUpdate :=
  { state := (scheduledItem cfg c now fr).card.state
    difficulty := (scheduledItem cfg c now fr).card.difficulty
    stability := (scheduledItem cfg c now fr).card.stability
    due := (scheduledItem cfg c now fr).card.due
    elapsed_days := (scheduledItem cfg c now fr).card.elapsed_days
    scheduled_days := (scheduledItem cfg c now fr).card.scheduled_days
    reps := (scheduledItem cfg c now fr).card.reps
    lapses := (scheduledItem cfg c now fr).card.lapses
    last_review := now
    updated_at := now }

/-- The `review_logs` payload `submitReview` builds for the fetched card and
the converted rating. -/
def logPayload (cfg : FsrsConfig) (c : DbCard) (dto : CreateReviewDTO)
    (userId : String) (now : ℚ) (fr : Rating) : LogRow :=
  { card_id := dto.card_id
    user_id := userId
    rating := dto.rating
    review_duration_ms := dto.review_duration_ms
    reviewed_at := now
    state := c.state
    difficulty := c.difficulty
    stability := c.stability
    elapsed_days := c.elapsed_days
    scheduled_days := c.scheduled_days
    last_elapsed_days := (scheduledItem cfg c now fr).log.elapsed_days
    due := c.due }

lemma submitReview_ok (cfg : FsrsConfig) (db : List DbCard) (logOk : Bool)
    (userId : String) (dto : CreateReviewDTO) (now : ℚ) (c : DbCard) (fr : Rating)
    (hf : fetchCard db dto.card_id userId = some c)
    (hc : convertRatingToFsrsRating dto.rating = .ok fr) :
    submitReview cfg db true logOk userId dto now =
      (⟨.ok (applyReviewUpdate c (updPayload cfg c now fr)),
        some (applyReviewUpdate c (updPayload cfg c now fr)),
        some (logPayload cfg c dto userId now fr), logOk⟩,
       updateCardWhere db dto.card_id userId (updPayload cfg c now fr)) := by
  unfold submitReview
  rw [hf, hc]
  cases fr <;>
    simp [scheduledItem, updPayload, logPayload, fsrsRepeat]

lemma stepInterval_pos {steps : List ℚ} (h : ∀ s ∈ steps, 0 < s) (i : ℕ) :
    0 < stepInterval steps i := by
  unfold stepInterval
  rcases Nat.lt_or_ge i steps.length with hi | hi
  · rw [List.getD_eq_getElem _ _ hi]
    exact h _ (List.getElem_mem hi)
  · rw [List.getD_eq_default _ _ hi]
    exact zero_lt_one

lemma graduatedInterval_pos (cfg : FsrsConfig) (s : ℚ) :
    0 < graduatedInterval cfg s :=
  lt_of_lt_of_le zero_lt_one (le_max_left _ _)

lemma branchData_interval_pos {cfg : FsrsConfig} (hWF : cfg.WF) (c : Card)
    (e : ℚ) (r : Rating) : 0 < (branchData cfg c e r).interval := by
  obtain ⟨-, -, -, hls, hrs⟩ := hWF
  cases r <;> unfold branchData <;> dsimp only <;> (repeat' split) <;>
    first
      | exact graduatedInterval_pos cfg _
      | exact stepInterval_pos hls _
      | exact stepInterval_pos hrs _

lemma clampD_bounds {cfg : FsrsConfig} (h : cfg.minDifficulty ≤ cfg.maxDifficulty)
    (x : ℚ) : cfg.minDifficulty ≤ clampD cfg x ∧ clampD cfg x ≤ cfg.maxDifficulty :=
  ⟨le_min h (le_max_left _ _), min_le_left _ _⟩

lemma initialDifficulty_bounds {cfg : FsrsConfig}
    (h : cfg.minDifficulty ≤ cfg.maxDifficulty) (r : Rating) :
    cfg.minDifficulty ≤ initialDifficulty cfg r ∧
      initialDifficulty cfg r ≤ cfg.maxDifficulty :=
  clampD_bounds h _

lemma nextDifficulty_bounds {cfg : FsrsConfig}
    (h : cfg.minDifficulty ≤ cfg.maxDifficulty) (d : ℚ) (r : Rating) :
    cfg.minDifficulty ≤ nextDifficulty cfg d r ∧
      nextDifficulty cfg d r ≤ cfg.maxDifficulty :=
  clampD_bounds h _

lemma branchData_nextDiff_clamped (cfg : FsrsConfig) (c : Card) (e : ℚ)
    (r : Rating) : ∃ x, (branchData cfg c e r).nextDiff = clampD cfg x := by
  cases r <;> unfold branchData <;> dsimp only <;> (repeat' split) <;>
    exact ⟨_, rfl⟩

lemma branchData_difficulty_bounds {cfg : FsrsConfig} (hWF : cfg.WF) (c : Card)
    (e : ℚ) (r : Rating) :
    cfg.minDifficulty ≤ (branchData cfg c e r).nextDiff ∧
      (branchData cfg c e r).nextDiff ≤ cfg.maxDifficulty := by
  obtain ⟨hd, -, -, -, -⟩ := hWF
  obtain ⟨x, hx⟩ := branchData_nextDiff_clamped cfg c e r
  rw [hx]
  exact clampD_bounds hd x

lemma convert_ok_again_iff {n : ℕ} {fr : Rating}
    (h : convertRatingToFsrsRating n = .ok fr) : fr = .again ↔ n = 1 := by
  unfold convertRatingToFsrsRating at h
  split_ifs at h with h1 h2 h3 h4 <;> simp at h <;> subst h <;> simp [h1]

/-- C1: for every valid card memory-state, rating in {1,2,3,4} and review
instant `now`, the review step (`submitReview`) writes a card whose `reps`
is the old `reps` plus one, whose `elapsed_days` is the whole-day difference
`now − last_review` (0 when the old `last_review` is null), whose `due` is
`now` plus the applied interval `scheduled_days`, and whose `last_review` is
`now`. -/
theorem c1_review_step_bookkeeping (cfg : FsrsConfig) (db : List DbCard)
    (logOk : Bool) (userId : String) (dto : CreateReviewDTO) (now : ℚ)
    (c : DbCard) (fr : Rating)
    (hf : fetchCard db dto.card_id userId = some c)
    (hc : convertRatingToFsrsRating dto.rating = .ok fr) :
    ∃ w, (submitReview cfg db true logOk userId dto now).1.written = some w ∧
      w.reps = c.reps + 1 ∧
      w.elapsed_days = elapsedDays c.last_review now ∧
      w.due = now + w.scheduled_days ∧
      w.last_review = some now := by
  rw [submitReview_ok cfg db logOk userId dto now c fr hf hc]
  exact ⟨_, rfl, rfl, rfl, rfl, rfl⟩

theorem c1_witness :
    ∃ w, (submitReview defaultConfig [sampleCard] true true sampleCard.user_id
        sampleDto 100).1.written = some w ∧
      w.reps = sampleCard.reps + 1 ∧
      w.elapsed_days = elapsedDays sampleCard.last_review 100 ∧
      w.due = 100 + w.scheduled_days ∧
      w.last_review = some 100 :=
  c1_review_step_bookkeeping defaultConfig [sampleCard] true sampleCard.user_id
    sampleDto 100 sampleCard .good (by decide) rfl

/-- C2: for every rating and every prior card memory-state, the due
timestamp written by the review step is strictly greater than the review
instant `now` (for a well-formed scheduler configuration). -/
theorem c2_due_in_future (cfg : FsrsConfig) (db : List DbCard) (logOk : Bool)
    (userId : String) (dto : CreateReviewDTO) (now : ℚ) (c : DbCard) (fr : Rating)
    (hWF : cfg.WF)
    (hf : fetchCard db dto.card_id userId = some c)
    (hc : convertRatingToFsrsRating dto.rating = .ok fr) :
    ∃ w, (submitReview cfg db true logOk userId dto now).1.written = some w ∧
      now < w.due := by
  rw [submitReview_ok cfg db logOk userId dto now c fr hf hc]
  refine ⟨_, rfl, ?_⟩
  have h := branchData_interval_pos hWF (convertDbCardToFsrsCard c)
    (elapsedDays (convertDbCardToFsrsCard c).last_review now) fr
  show now < now + (branchData cfg (convertDbCardToFsrsCard c)
    (elapsedDays (convertDbCardToFsrsCard c).last_review now) fr).interval
  linarith

theorem c2_witness :
    defaultConfig.WF ∧
      ∃ w, (submitReview defaultConfig [sampleCard] true true sampleCard.user_id
          sampleDto 100).1.written = some w ∧ (100 : ℚ) < w.due :=
  ⟨by decide,
    c2_due_in_future defaultConfig [sampleCard] true sampleCard.user_id
      sampleDto 100 sampleCard .good (by decide) (by decide) rfl⟩

/-- C3: the review-history record written by `submitReview` snapshots the
card's pre-update memory-state: the `state`, `due`, `stability`,
`difficulty`, `elapsed_days` and `scheduled_days` fields of the inserted log
row equal the corresponding fields of the card state read before the update,
not those of the updated state. -/
theorem c3_snapshot_pre_update (cfg : FsrsConfig) (db : List DbCard)
    (logOk : Bool) (userId : String) (dto : CreateReviewDTO) (now : ℚ)
    (c : DbCard) (fr : Rating)
    (hf : fetchCard db dto.card_id userId = some c)
    (hc : convertRatingToFsrsRating dto.rating = .ok fr) :
    ∃ row, (submitReview cfg db true logOk userId dto now).1.logAttempt = some row ∧
      row.state = c.state ∧
      row.due = c.due ∧
      row.stability = c.stability ∧
      row.difficulty = c.difficulty ∧
      row.elapsed_days = c.elapsed_days ∧
      row.scheduled_days = c.scheduled_days := by
  rw [submitReview_ok cfg db logOk userId dto now c fr hf hc]
  exact ⟨_, rfl, rfl, rfl, rfl, rfl, rfl, rfl⟩

theorem c3_witness :
    ∃ row, (submitReview defaultConfig [sampleCard] true true sampleCard.user_id
        sampleDto 100).1.logAttempt = some row ∧
      row.state = sampleCard.state ∧
      row.due = sampleCard.due ∧
      row.stability = sampleCard.stability ∧
      row.difficulty = sampleCard.difficulty ∧
      row.elapsed_days = sampleCard.elapsed_days ∧
      row.scheduled_days = sampleCard.scheduled_days :=
  c3_snapshot_pre_update defaultConfig [sampleCard] true sampleCard.user_id
    sampleDto 100 sampleCard .good (by decide) rfl

/-- C4: across any sequence of reviews, each review increments `lapses` by
exactly one when the rating is Again (1) and the card is in Review (2) or
Relearning (3) state, and leaves `lapses` unchanged on every other review. -/
theorem c4_lapses_rule (cfg : FsrsConfig) (db : List DbCard) (logOk : Bool)
    (userId : String) (dto : CreateReviewDTO) (now : ℚ) (c : DbCard) (fr : Rating)
    (hf : fetchCard db dto.card_id userId = some c)
    (hc : convertRatingToFsrsRating dto.rating = .ok fr) :
    ∃ w, (submitReview cfg db true logOk userId dto now).1.written = some w ∧
      ((dto.rating = 1 ∧ (c.state = 2 ∨ c.state = 3)) → w.lapses = c.lapses + 1) ∧
      (¬(dto.rating = 1 ∧ (c.state = 2 ∨ c.state = 3)) → w.lapses = c.lapses) := by
  rw [submitReview_ok cfg db logOk userId dto now c fr hf hc]
  refine ⟨_, rfl, ?_, ?_⟩ <;>
    show _ →
      c.lapses + (if fr = .again ∧ (c.state = 2 ∨ c.state = 3) then 1 else 0) = _
  · rintro ⟨h1, h2⟩
    rw [if_pos ⟨(convert_ok_again_iff hc).mpr h1, h2⟩]
  · intro h
    have hn : ¬(fr = .again ∧ (c.state = 2 ∨ c.state = 3)) := by
      rintro ⟨ha, hs⟩
      exact h ⟨(convert_ok_again_iff hc).mp ha, hs⟩
    rw [if_neg hn, Nat.add_zero]

theorem c4_witness :
    ∃ w, (submitReview defaultConfig [sampleCard] true true sampleCard.user_id
        sampleDto 100).1.written = some w ∧
      ((sampleDto.rating = 1 ∧ (sampleCard.state = 2 ∨ sampleCard.state = 3)) →
        w.lapses = sampleCard.lapses + 1) ∧
      (¬(sampleDto.rating = 1 ∧ (sampleCard.state = 2 ∨ sampleCard.state = 3)) →
        w.lapses = sampleCard.lapses) :=
  c4_lapses_rule defaultConfig [sampleCard] true sampleCard.user_id
    sampleDto 100 sampleCard .good (by decide) rfl

/-- C5: for every prior card memory-state and every rating, the difficulty
written by the review step lies within the configured difficulty bounds of a
well-formed configuration; since this holds for every single review, no
sequence of consecutive Easy or Again reviews can drive difficulty outside
those bounds. -/
theorem c5_difficulty_bounded (cfg : FsrsConfig) (db : List DbCard)
    (logOk : Bool) (userId : String) (dto : CreateReviewDTO) (now : ℚ)
    (c : DbCard) (fr : Rating)
    (hWF : cfg.WF)
    (hf : fetchCard db dto.card_id userId = some c)
    (hc : convertRatingToFsrsRating dto.rating = .ok fr) :
    ∃ w, (submitReview cfg db true logOk userId dto now).1.written = some w ∧
      cfg.minDifficulty ≤ w.difficulty ∧ w.difficulty ≤ cfg.maxDifficulty := by
  rw [submitReview_ok cfg db logOk userId dto now c fr hf hc]
  have h := branchData_difficulty_bounds hWF (convertDbCardToFsrsCard c)
    (elapsedDays (convertDbCardToFsrsCard c).last_review now) fr
  exact ⟨_, rfl, h.1, h.2⟩

theorem c5_witness :
    defaultConfig.WF ∧
      ∃ w, (submitReview defaultConfig [sampleCard] true true sampleCard.user_id
          sampleDto 100).1.written = some w ∧
        defaultConfig.minDifficulty ≤ w.difficulty ∧
        w.difficulty ≤ defaultConfig.maxDifficulty :=
  ⟨by decide,
    c5_difficulty_bounded defaultConfig [sampleCard] true sampleCard.user_id
      sampleDto 100 sampleCard .good (by decide) (by decide) rfl⟩

/-- C7: when the flashcard state update succeeds and the subsequent
review-log append fails, `submitReview` still returns the updated card
normally: the result is the successfully updated card, the state write is
kept, and no error is raised to the caller. -/
theorem c7_log_failure_does_not_block (cfg : FsrsConfig) (db : List DbCard)
    (userId : String) (dto : CreateReviewDTO) (now : ℚ) (c : DbCard) (fr : Rating)
    (hf : fetchCard db dto.card_id userId = some c)
    (hc : convertRatingToFsrsRating dto.rating = .ok fr) :
    ∃ w, (submitReview cfg db true false userId dto now).1.result = .ok w ∧
      (submitReview cfg db true false userId dto now).1.written = some w ∧
      (submitReview cfg db true false userId dto now).1.logWritten = false := by
  rw [submitReview_ok cfg db false userId dto now c fr hf hc]
  exact ⟨_, rfl, rfl, rfl⟩

theorem c7_witness :
    ∃ w, (submitReview defaultConfig [sampleCard] true false sampleCard.user_id
        sampleDto 100).1.result = .ok w ∧
      (submitReview defaultConfig [sampleCard] true false sampleCard.user_id
        sampleDto 100).1.written = some w ∧
      (submitReview defaultConfig [sampleCard] true false sampleCard.user_id
        sampleDto 100).1.logWritten = false :=
  c7_log_failure_does_not_block defaultConfig [sampleCard] sampleCard.user_id
    sampleDto 100 sampleCard .good (by decide) rfl

/-- C10: the card row written by the review step changes only the FSRS
memory-state columns and `updated_at`; the card's `id`, `user_id`, `front`,
`back`, `is_ai_generated` and `created_at` keep the values read before the
update. -/
theorem c10_review_update_frame (cfg : FsrsConfig) (db : List DbCard)
    (logOk : Bool) (userId : String) (dto : CreateReviewDTO) (now : ℚ)
    (c : DbCard) (fr : Rating)
    (hf : fetchCard db dto.card_id userId = some c)
    (hc : convertRatingToFsrsRating dto.rating = .ok fr) :
    ∃ w, (submitReview cfg db true logOk userId dto now).1.written = some w ∧
      w.id = c.id ∧
      w.user_id = c.user_id ∧
      w.front = c.front ∧
      w.back = c.back ∧
      w.is_ai_generated = c.is_ai_generated ∧
      w.created_at = c.created_at ∧
      w.updated_at = now := by
  rw [submitReview_ok cfg db logOk userId dto now c fr hf hc]
  exact ⟨_, rfl, rfl, rfl, rfl, rfl, rfl, rfl, rfl⟩

theorem c10_witness :
    ∃ w, (submitReview defaultConfig [sampleCard] true true sampleCard.user_id
        sampleDto 100).1.written = some w ∧
      w.id = sampleCard.id ∧
      w.user_id = sampleCard.user_id ∧
      w.front = sampleCard.front ∧
      w.back = sampleCard.back ∧
      w.is_ai_generated = sampleCard.is_ai_generated ∧
      w.created_at = sampleCard.created_at ∧
      w.updated_at = 100 :=
  c10_review_update_frame defaultConfig [sampleCard] true sampleCard.user_id
    sampleDto 100 sampleCard .good (by decide) rfl

/-- C6: at the failing input — the card `sampleCard` whose pre-update
`elapsed_days` is 3 but whose `last_review` lies 5 whole days before the
review instant — the `last_elapsed_days` column written to `review_logs`
receives `recordLog.log.elapsed_days`, the elapsed days of the *current*
review (5), not the elapsed-days value carried over from the previous review
(the pre-update card's `elapsed_days`, 3) as the claim and the repository's
own schema documentation state. -/
theorem c6_last_elapsed_days_is_current_elapsed :
    ((submitReview defaultConfig [sampleCard] true true sampleCard.user_id
        sampleDto 100).1.logAttempt.map (fun row => row.last_elapsed_days)) =
      some 5 ∧
    sampleCard.elapsed_days = 3 ∧
    (5 : ℚ) ≠ 3 := by
  rw [submitReview_ok defaultConfig [sampleCard] true sampleCard.user_id
    sampleDto 100 sampleCard .good (by decide) rfl]
  refine ⟨?_, by decide, by decide⟩
  simp only [logPayload, scheduledItem, fsrsRepeat, scheduleRating,
    elapsedDays, convertDbCardToFsrsCard, sampleCard, Option.map_some]
  norm_num [Rat.floor]

/-- The stale-write interleaving of two reviews of the same card: both update
payloads are computed from the same pre-fetched row `sampleCard`; the first
write is applied, then the second (now stale) write is applied to the
resulting database. -/
def staleSecondWrite : Except String (DbCard × List DbCard) :=
  match writeCardUpdate [sampleCard] sampleCard.id sampleCard.user_id
      (updPayload defaultConfig sampleCard 100 .good) with
  | .error e => .error e
  | .ok (_, db1) =>
    writeCardUpdate db1 sampleCard.id sampleCard.user_id
      (updPayload defaultConfig sampleCard 100 .hard)

/-- C8 counterexample: with two reviews of `sampleCard` computed from the
same pre-fetched state, the second, stale write is *not* rejected — it
succeeds (the persistence step filters only on `id` and `user_id`, never on
the previously read state) — and the final `reps` is `sampleCard.reps + 1`
rather than `sampleCard.reps + 2`: the first review's effect on the counters
is silently dropped, contradicting the claim that a retry-needed failure is
surfaced for the second write. -/
theorem c8_counterexample :
    (staleSecondWrite.toOption.map (fun p => p.1.reps)) = some 8 ∧
    sampleCard.reps + 1 = 8 ∧
    sampleCard.reps + 2 = 9 ∧
    (8 : ℕ) ≠ 9 := by
  decide

/-- C8 (amended): the persistence step of `submitReview` conditions the card
update only on `id` and `user_id`, not on the previously read state, so when
two reviews of the same card are computed from the same pre-fetched row, the
second, stale write also succeeds (no retry-needed failure is surfaced) and
the final state reflects only the second computation: its `reps` is the old
`reps` plus one — the first review's increment is silently overwritten. -/
theorem c8_stale_write_last_wins (cfg : FsrsConfig) (S : DbCard)
    (n1 n2 : ℚ) (fr1 fr2 : Rating) :
    ∃ w1 db1 w2 db2,
      writeCardUpdate [S] S.id S.user_id (updPayload cfg S n1 fr1) =
        .ok (w1, db1) ∧
      writeCardUpdate db1 S.id S.user_id (updPayload cfg S n2 fr2) =
        .ok (w2, db2) ∧
      w1.reps = S.reps + 1 ∧
      w2.reps = S.reps + 1 ∧
      w2.lapses = (scheduledItem cfg S n2 fr2).card.lapses := by
  refine ⟨applyReviewUpdate S (updPayload cfg S n1 fr1),
    updateCardWhere [S] S.id S.user_id (updPayload cfg S n1 fr1),
    applyReviewUpdate (applyReviewUpdate S (updPayload cfg S n1 fr1))
      (updPayload cfg S n2 fr2),
    updateCardWhere (updateCardWhere [S] S.id S.user_id (updPayload cfg S n1 fr1))
      S.id S.user_id (updPayload cfg S n2 fr2),
    ?_, ?_, rfl, rfl, rfl⟩ <;>
    simp [writeCardUpdate, fetchCard, updateCardWhere, applyReviewUpdate,
      List.find?]

/-- A request with a valid UUID `card_id`, a valid rating and
`review_duration_ms = 0` — a non-negative integer duration. -/
def zeroDurationRequest : ReviewRequest :=
  { card_id := "123e4567-e89b-12d3-a456-426614174000"
    rating := 3
    review_duration_ms := some 0 }

/-- C9 counterexample: the request with `review_duration_ms = 0` satisfies
every acceptance condition of the claim — valid UUID `card_id`, rating in
{1,2,3,4}, and a duration that is a non-negative integer — yet
`CreateReviewSchema` rejects it, because `z.number().int().positive()`
requires the duration to be strictly greater than zero. -/
theorem c9_counterexample :
    CreateReviewSchemaAccepts zeroDurationRequest = false ∧
    isUuid zeroDurationRequest.card_id = true ∧
    zeroDurationRequest.rating = 3 ∧
    zeroDurationRequest.review_duration_ms = some 0 ∧
    (0 : ℚ).den = 1 ∧
    (0 : ℚ) ≤ 0 := by
  decide

/-- C9 (amended): the review-submission validation accepts a request exactly
when `card_id` is a UUID, the rating is one of the literal numbers 1, 2, 3,
4, and `review_duration_ms`, when present, is a strictly positive integer;
in particular a request with `review_duration_ms = 0` is rejected. -/
theorem c9_schema_characterization (r : ReviewRequest) :
    CreateReviewSchemaAccepts r = true ↔
      (isUuid r.card_id = true ∧
        (r.rating = 1 ∨ r.rating = 2 ∨ r.rating = 3 ∨ r.rating = 4) ∧
        (∀ d ∈ r.review_duration_ms, d.den = 1 ∧ 0 < d)) := by
  rcases r with ⟨cid, rat, dur⟩
  rcases dur with - | d <;>
    simp [CreateReviewSchemaAccepts, Bool.and_eq_true, Bool.or_eq_true,
      and_assoc, or_assoc]

end Flashcards
